import Mathlib

/-!
Verification of the `aide-macros` repository: a shallow embedding of the
doc-comment extraction pipeline (`collect_doc_comments`,
`split_summary_description`), the `aide_docs` attribute-argument parser
and generated companion closure, the `TagApiRouter` carrier, and the
response-adapter shims (`NoContent`, `TextPlain`), together with proofs
of the specified properties.
-/

/-- Model of Rust `char::is_whitespace`: the Unicode White_Space property
(U+0009..U+000D, U+0020, U+0085, U+00A0, U+1680, U+2000..U+200A, U+2028,
U+2029, U+202F, U+205F, U+3000). Used by `str::trim`. -/
def rustIsWhitespace (c : Char) : Bool :=
  c = '\t' || c = '\n' || c = '\x0b' || c = '\x0c' || c = '\r' || c = ' ' ||
  c = '\x85' || c = '\xa0' || c = ' ' ||
  (' ' ≤ c && c ≤ ' ') ||
  c = ' ' || c = ' ' || c = ' ' || c = ' ' || c = '　'

/-- Rust `str::trim` at the character-list level: drop leading and trailing
whitespace characters. -/
def trimChars (l : List Char) : List Char :=
  ((l.dropWhile rustIsWhitespace).reverse.dropWhile rustIsWhitespace).reverse

/-- Model of Rust `str::trim` on strings. -/
def rustTrim (s : String) : String :=
  String.mk (trimChars s.data)

/-- Model of the part of `syn::Meta` that `collect_doc_comments` inspects:
either a name-value meta whose value is a string literal (carrying the
literal's value), or any other attribute shape. -/
inductive AttrMeta where
  | nameValueStr (value : String)
  | otherMeta
deriving DecidableEq

/-- Model of a `syn::Attribute`: its path (as the list of segment
identifiers, modelling `syn::Path`) and its meta. -/
structure Attribute where
  path : List String
  meta : AttrMeta
deriving DecidableEq

/-- Model of `syn::Path::is_ident`: true exactly when the path is the single
given segment. -/
def Path.is_ident (p : List String) (i : String) : Bool :=
  decide (p = [i])

/-- Model of `syn::Path::get_ident`: the segment when the path has exactly
one, otherwise nothing. -/
def Path.get_ident : List String → Option String
  | [i] => some i
  | _ => none

/-- Embedding of `collect_doc_comments` (src/aide-docs/src/lib.rs:106-132):
walk the attributes; keep only those whose path is the identifier `doc` and
whose meta is a name-value with a string literal; skip a literal whose
(untrimmed) value is empty, otherwise push its trimmed value. -/
def collect_doc_comments : List Attribute → List String
  | [] => []
  | attr :: rest =>
    if Path.is_ident attr.path "doc" then
      match attr.meta with
      | AttrMeta.nameValueStr litStr =>
        if litStr = "" then collect_doc_comments rest
        else rustTrim litStr :: collect_doc_comments rest
      | AttrMeta.otherMeta => collect_doc_comments rest
    else collect_doc_comments rest

/-- Model of Rust `[String]::join("\n")`. -/
def joinNL : List String → String
  | [] => ""
  | [x] => x
  | x :: y :: rest => x ++ "\n" ++ joinNL (y :: rest)

/-- Embedding of `split_summary_description`
(src/aide-docs/src/lib.rs:136-141): the first line becomes the summary and
the remaining lines, newline-joined, become the description; both are empty
when there are no lines. -/
def split_summary_description : List String → String × String
  | [] => ("", "")
  | summary :: desc => (summary, joinNL desc)

/-- A doc-comment attribute carrying the given string value. -/
def docAttr (value : String) : Attribute :=
  ⟨["doc"], AttrMeta.nameValueStr value⟩

/-- The attribute list of a sequence of doc-comment values. -/
def docAttrs (D : List String) : List Attribute :=
  D.map docAttr

/-- The string-literal values of the doc attributes of a list, in order
(the raw inputs `collect_doc_comments` selects from). -/
def docValues (attrs : List Attribute) : List String :=
  attrs.filterMap (fun attr =>
    if Path.is_ident attr.path "doc" then
      match attr.meta with
      | AttrMeta.nameValueStr v => some v
      | AttrMeta.otherMeta => none
    else none)

/-- The spec's wording of the kept doc lines: trim every value, then keep
the values whose trimmed form is non-empty. -/
def nonEmptyTrimmedLines (D : List String) : List String :=
  (D.map rustTrim).filter (fun s => decide (s ≠ ""))

/-- Reconstruction of a (summary, description) pair as summary followed by
description, newline-joined; an empty description contributes nothing. -/
def reconstructDoc (sd : String × String) : String :=
  if sd.2 = "" then sd.1 else sd.1 ++ "\n" ++ sd.2

lemma collect_doc_comments_eq (attrs : List Attribute) :
    collect_doc_comments attrs =
      ((docValues attrs).filter (fun v => decide (v ≠ ""))).map rustTrim := by
  induction attrs with
  | nil => rfl
  | cons attr rest ih =>
    unfold collect_doc_comments docValues
    cases hp : Path.is_ident attr.path "doc" with
    | false => simpa [hp, docValues] using ih
    | true =>
      cases hm : attr.meta with
      | otherMeta => simpa [hp, hm, docValues] using ih
      | nameValueStr v =>
        by_cases hv : v = "" <;>
          simp [hp, hm, hv, docValues, List.filterMap_cons, ih]

lemma docValues_docAttrs (D : List String) : docValues (docAttrs D) = D := by
  induction D with
  | nil => rfl
  | cons l t ih =>
    simp [docValues, docAttrs, docAttr, Path.is_ident, List.filterMap_cons] at ih ⊢
    exact ih

lemma collect_docAttrs (D : List String) :
    collect_doc_comments (docAttrs D) =
      (D.filter (fun v => decide (v ≠ ""))).map rustTrim := by
  rw [collect_doc_comments_eq, docValues_docAttrs]

lemma joinNL_ne_empty (y : String) (t : List String) (hy : y ≠ "") :
    joinNL (y :: t) ≠ "" := by
  cases t with
  | nil => simpa [joinNL] using hy
  | cons z t' =>
    intro h
    have hlen := congrArg String.length h
    simp only [joinNL, String.length_append] at hlen
    rw [show ("\n" : String).length = 1 from rfl,
      show ("" : String).length = 0 from rfl] at hlen
    omega

lemma joinNL_roundtrip (L : List String) (h : ∀ x ∈ L, x ≠ "") :
    reconstructDoc (split_summary_description L) = joinNL L := by
  cases L with
  | nil => rfl
  | cons x rest =>
    cases rest with
    | nil => rfl
    | cons y t =>
      have hy : y ≠ "" := h y (by simp)
      have hne := joinNL_ne_empty y t hy
      simp [split_summary_description, reconstructDoc, hne, joinNL]

lemma rustTrim_empty : rustTrim "" = "" := rfl

lemma collect_docAttrs_of_clean (D : List String)
    (h : ∀ l ∈ D, l = "" ∨ rustTrim l ≠ "") :
    collect_doc_comments (docAttrs D) = nonEmptyTrimmedLines D := by
  rw [collect_docAttrs]
  unfold nonEmptyTrimmedLines
  induction D with
  | nil => rfl
  | cons l t ih =>
    have ht : ∀ x ∈ t, x = "" ∨ rustTrim x ≠ "" := fun x hx => h x (by simp [hx])
    by_cases hl : l = ""
    · simpa [hl, rustTrim_empty] using ih ht
    · have htr : rustTrim l ≠ "" := (h l (by simp)).resolve_left hl
      simpa [hl, htr] using ih ht

lemma mem_trimChars {c : Char} {l : List Char} (h : c ∈ trimChars l) : c ∈ l := by
  rw [trimChars, List.mem_reverse] at h
  have h2 : c ∈ (l.dropWhile rustIsWhitespace).reverse :=
    List.Sublist.mem h (List.dropWhile_sublist _)
  rw [List.mem_reverse] at h2
  exact List.Sublist.mem h2 (List.dropWhile_sublist _)

/-- Claim C1 fails as stated: for the doc-comment sequence [" ", "a"], the
reconstructed summary-then-description is "\na" while the non-empty trimmed
lines of the input newline-join to "a". -/
theorem c1_counterexample :
    reconstructDoc (split_summary_description
        (collect_doc_comments (docAttrs [" ", "a"]))) ≠
      joinNL (nonEmptyTrimmedLines [" ", "a"]) := by
  decide

/-- Claim C1 (amended): for every sequence D of doc-comment values in which
no value is whitespace-only unless it is the empty string, extracting
(summary, description) via `collect_doc_comments` then
`split_summary_description` and reconstructing summary-then-description by
newline-joining reproduces exactly the non-empty trimmed lines of D, in
order. -/
theorem c1_doc_roundtrip (D : List String)
    (h : ∀ l ∈ D, l = "" ∨ rustTrim l ≠ "") :
    reconstructDoc (split_summary_description
        (collect_doc_comments (docAttrs D))) =
      joinNL (nonEmptyTrimmedLines D) := by
  rw [collect_docAttrs_of_clean D h]
  apply joinNL_roundtrip
  intro x hx
  unfold nonEmptyTrimmedLines at hx
  have := List.of_mem_filter hx
  simpa using this

/-- Witness for `c1_doc_roundtrip` at D = ["First.", "", " Second. "]. -/
theorem c1_doc_roundtrip_witness :
    (∀ l ∈ ["First.", "", " Second. "], l = "" ∨ rustTrim l ≠ "") ∧
      reconstructDoc (split_summary_description
          (collect_doc_comments (docAttrs ["First.", "", " Second. "]))) =
        joinNL (nonEmptyTrimmedLines ["First.", "", " Second. "]) :=
  ⟨by decide, c1_doc_roundtrip ["First.", "", " Second. "] (by decide)⟩

/-- Claim C2 fails as stated: a doc attribute whose value is the single
space " " has an empty trimmed form, yet `collect_doc_comments` keeps it
(as the empty string) instead of discarding it. -/
theorem c2_counterexample :
    collect_doc_comments [docAttr " "] ≠
      ((docValues [docAttr " "]).map rustTrim).filter
        (fun s => decide (s ≠ "")) := by
  decide

/-- Claim C2 (amended): `collect_doc_comments` returns the values of the
doc attributes in declaration order, discarding every value that is empty
before trimming and trimming each kept value; a doc line consisting only
of whitespace is therefore kept and contributes an empty line. -/
theorem c2_collect_doc_comments_spec (attrs : List Attribute) :
    collect_doc_comments attrs =
      ((docValues attrs).filter (fun v => decide (v ≠ ""))).map rustTrim :=
  collect_doc_comments_eq attrs

/-- Claim C3: `split_summary_description` maps the empty list to ("", "");
a one-element list [s] to (s, ""); and a list of two or more lines to its
first line paired with the newline-join of the remaining lines. -/
theorem c3_split_summary_description_spec :
    split_summary_description [] = ("", "") ∧
      (∀ s, split_summary_description [s] = (s, "")) ∧
      (∀ x y rest, split_summary_description (x :: y :: rest) =
        (x, joinNL (y :: rest))) :=
  ⟨rfl, fun _ => rfl, fun _ _ _ => rfl⟩

/-- Claim C6 fails as stated: the doc attribute value "a\nb" is legal input
and its embedded newline survives trimming, so the extracted summary
contains a newline. -/
theorem c6_counterexample :
    '\n' ∈ (split_summary_description
        (collect_doc_comments (docAttrs ["a\nb"]))).1.data := by
  decide

/-- Claim C6 (amended): for every doc-comment sequence whose values contain
no newline character, the summary produced by `collect_doc_comments` then
`split_summary_description` contains no newline character. -/
theorem c6_summary_no_newline (D : List String)
    (h : ∀ l ∈ D, '\n' ∉ l.data) :
    '\n' ∉ (split_summary_description
        (collect_doc_comments (docAttrs D))).1.data := by
  rw [collect_docAttrs]
  cases hD : D.filter (fun v => decide (v ≠ "")) with
  | nil => simp [split_summary_description]
  | cons l t =>
    simp only [List.map_cons, split_summary_description]
    intro hc
    have hl : l ∈ D := List.mem_of_mem_filter (hD ▸ List.mem_cons_self l t)
    exact h l hl (mem_trimChars hc)

/-- Witness for `c6_summary_no_newline` at D = ["ab", "cd"]. -/
theorem c6_summary_no_newline_witness :
    (∀ l ∈ ["ab", "cd"], '\n' ∉ l.data) ∧
      '\n' ∉ (split_summary_description
          (collect_doc_comments (docAttrs ["ab", "cd"]))).1.data :=
  ⟨by decide, c6_summary_no_newline ["ab", "cd"] (by decide)⟩

/-- Model of the aide `openapi::Operation` restricted to the fields the
generated code touches: summary, description, tag list and the deprecated
flag. -/
structure Operation where
  summary : Option String := none
  description : Option String := none
  tags : List String := []
  deprecated : Bool := false
deriving DecidableEq

/-- Model of the aide transform `tag` method: pushes the tag onto the
operation's tag list. -/
def Operation.addTag (op : Operation) (t : String) : Operation :=
  { op with tags := op.tags ++ [t] }

/-- Embedding of the `AideDocsAttributes` struct
(src/aide-docs/src/lib.rs:77-81) with its `Default`. -/
structure AideDocsAttributes where
  tag : Option String := none
  deprecated : Bool := false
deriving DecidableEq

/-- Model of a `syn::meta::ParseNestedMeta` argument as the parser observes
it: the argument's key path and, after `=`, either a string literal, some
other value shape, or no value at all (bare key). -/
inductive MetaValue where
  | strLit (s : String)
  | otherLit
deriving DecidableEq

structure ParseNestedMeta where
  path : List String
  value : Option MetaValue
deriving DecidableEq

/-- Embedding of `AideDocsAttributes::parse`
(src/aide-docs/src/lib.rs:85-101): `tag` takes a string-literal value,
`deprecated` is a bare flag, and any other key is an error built from
`get_ident().unwrap_or_default()`. The two messages for a missing or
non-string `tag` value stand in for the diagnostics syn itself produces
there. -/
def AideDocsAttributes.parse (a : AideDocsAttributes) (meta : ParseNestedMeta) :
    Except String AideDocsAttributes :=
  if Path.is_ident meta.path "tag" then
    match meta.value with
    | some (MetaValue.strLit s) => Except.ok { a with tag := some s }
    | some MetaValue.otherLit => Except.error "expected string literal"
    | none => Except.error "expected a value"
  else if Path.is_ident meta.path "deprecated" then
    Except.ok { a with deprecated := true }
  else
    Except.error ("unsupported property \x27" ++
      ((Path.get_ident meta.path).getD "") ++ "\x27")

/-- Rendering of a path as the user wrote it, segments joined by `::`. -/
def renderPath : List String → String
  | [] => ""
  | [i] => i
  | i :: j :: rest => i ++ "::" ++ renderPath (j :: rest)

/-- The needle occurs somewhere inside the haystack (substring at the
character level). -/
def strContainsSub (hay needle : String) : Prop :=
  needle.data <:+: hay.data

instance (hay needle : String) : Decidable (strContainsSub hay needle) := by
  unfold strContainsSub
  infer_instance

/-- Claim C5 fails as stated: the unrecognized key `foo::bar` (a
multi-segment path) is rejected, but `get_ident()` is `None` there, so the
diagnostic shows an empty name instead of naming the key. -/
theorem c5_counterexample :
    AideDocsAttributes.parse {} ⟨["foo", "bar"], none⟩ =
        Except.error "unsupported property \x27\x27" ∧
      ¬ strContainsSub "unsupported property \x27\x27"
          (renderPath ["foo", "bar"]) :=
  ⟨rfl, by decide⟩

/-- Claim C5 (amended): every argument key other than `tag` and
`deprecated` makes the parser return an error; when the key is a plain
single-segment identifier the message names it, while a multi-segment path
is reported with an empty name. -/
theorem c5_parse_unrecognized (a : AideDocsAttributes) (p : List String)
    (v : Option MetaValue) (hp1 : p ≠ ["tag"]) (hp2 : p ≠ ["deprecated"]) :
    (∃ msg, AideDocsAttributes.parse a ⟨p, v⟩ = Except.error msg) ∧
      ∀ k, p = [k] →
        AideDocsAttributes.parse a ⟨p, v⟩ =
            Except.error ("unsupported property \x27" ++ k ++ "\x27") ∧
          strContainsSub ("unsupported property \x27" ++ k ++ "\x27") k := by
  constructor
  · refine ⟨"unsupported property \x27" ++
      ((Path.get_ident p).getD "") ++ "\x27", ?_⟩
    simp [AideDocsAttributes.parse, Path.is_ident, hp1, hp2]
  · intro k hk
    subst hk
    refine ⟨?_, ?_⟩
    · simp [AideDocsAttributes.parse, Path.is_ident, Path.get_ident, hp1, hp2]
    · exact ⟨("unsupported property \x27").data, ("\x27").data,
        by simp [String.data_append]⟩

/-- Witness for `c5_parse_unrecognized` at the bare unrecognized key
`foo`. -/
theorem c5_parse_unrecognized_witness :
    (["foo"] ≠ (["tag"] : List String)) ∧
      (["foo"] ≠ (["deprecated"] : List String)) ∧
      ((∃ msg, AideDocsAttributes.parse {} ⟨["foo"], none⟩ =
          Except.error msg) ∧
        ∀ k, ["foo"] = [k] →
          AideDocsAttributes.parse {} ⟨["foo"], none⟩ =
              Except.error ("unsupported property \x27" ++ k ++ "\x27") ∧
            strContainsSub ("unsupported property \x27" ++ k ++ "\x27") k) :=
  ⟨by decide, by decide,
    c5_parse_unrecognized {} ["foo"] none (by decide) (by decide)⟩

/-- A registered route in the router model: its path and the documentation
entry attached to it. -/
structure Route where
  path : String
  op : Operation
deriving DecidableEq

/-- Model of `aide::axum::routing::ApiMethodRouter` restricted to what the
carrier observes: the documentation entry its handler contributes. -/
structure ApiMethodRouter where
  doc : Operation
deriving DecidableEq

/-- Model of `aide::axum::ApiRouter` (an external collaborator), restricted
to the router-building interface the repository consumes: the ordered list
of registered routes. -/
structure ApiRouter where
  routes : List Route
deriving DecidableEq

/-- Model of `ApiRouter::new`: the empty router. -/
def ApiRouter.new : ApiRouter := ⟨[]⟩

/-- Model of `ApiRouter::api_route_with`: register the method router's
documentation entry at the path after applying the transform to it. -/
def ApiRouter.api_route_with (r : ApiRouter) (path : String)
    (m : ApiMethodRouter) (f : Operation → Operation) : ApiRouter :=
  ⟨r.routes ++ [⟨path, f m.doc⟩]⟩

/-- Model of `ApiRouter::nest`: merge the sub-router's routes under the
path with their documentation entries untouched. -/
def ApiRouter.nest (r : ApiRouter) (path : String) (sub : ApiRouter) :
    ApiRouter :=
  ⟨r.routes ++ sub.routes.map (fun rt => ⟨path ++ rt.path, rt.op⟩)⟩

/-- Embedding of `TagApiRouter` (src/aide-axum-utils/src/lib.rs:19-22);
the axum state type parameter is erased since it plays no role in the
router bookkeeping. -/
structure TagApiRouter where
  inner : ApiRouter
  tag : String
deriving DecidableEq

/-- Embedding of `TagApiRouter::new` (lines 25-30). -/
def TagApiRouter.new (tag : String) : TagApiRouter :=
  ⟨ApiRouter.new, tag⟩

/-- Embedding of `TagApiRouter::api_route` (lines 32-37): registers the
route through `api_route_with`, stamping the carrier's tag onto the
route's documentation entry. -/
def TagApiRouter.api_route (r : TagApiRouter) (path : String)
    (m : ApiMethodRouter) : TagApiRouter :=
  { r with inner := r.inner.api_route_with path m (fun item => item.addTag r.tag) }

/-- Embedding of `TagApiRouter::nest` (lines 39-42): merges the sub-router
without tag stamping. -/
def TagApiRouter.nest (r : TagApiRouter) (path : String) (sub : ApiRouter) :
    TagApiRouter :=
  { r with inner := r.inner.nest path sub }

/-- Embedding of `From<TagApiRouter<S>> for ApiRouter<S>` (lines 45-49). -/
def TagApiRouter.toApiRouter (r : TagApiRouter) : ApiRouter :=
  r.inner

/-- Claim C7: the tag of a `TagApiRouter` is never changed by `api_route`
or `nest`; every route registered through `api_route` is appended with the
carrier's tag stamped onto its documentation entry; `nest` appends the
sub-router's routes with their own tags unmodified; converting the carrier
back to the plain router yields the accumulated inner router; and the
spec's "Billing"/"Other" scenario comes out as stated. -/
theorem c7_tag_api_router_spec :
    (∀ r path m, (TagApiRouter.api_route r path m).tag = r.tag) ∧
    (∀ r path sub, (TagApiRouter.nest r path sub).tag = r.tag) ∧
    (∀ r path m, (TagApiRouter.api_route r path m).inner.routes =
      r.inner.routes ++ [⟨path, { m.doc with tags := m.doc.tags ++ [r.tag] }⟩]) ∧
    (∀ r path sub, (TagApiRouter.nest r path sub).inner.routes =
      r.inner.routes ++ sub.routes.map (fun rt => ⟨path ++ rt.path, rt.op⟩)) ∧
    (∀ r, TagApiRouter.toApiRouter r = r.inner) ∧
    (TagApiRouter.toApiRouter
        ((((TagApiRouter.new "Billing").api_route "/a" ⟨{}⟩).api_route
          "/b" ⟨{}⟩).nest "/c" ⟨[⟨"/d", { tags := ["Other"] }⟩]⟩) =
      ⟨[⟨"/a", { tags := ["Billing"] }⟩, ⟨"/b", { tags := ["Billing"] }⟩,
        ⟨"/c/d", { tags := ["Other"] }⟩]⟩) := by
  refine ⟨fun r path m => rfl, fun r path sub => rfl, fun r path m => ?_,
    fun r path sub => rfl, fun r => rfl, by decide⟩
  simp [TagApiRouter.api_route, ApiRouter.api_route_with, Operation.addTag]

/-- The JSON schema value a generation context produces; only the subschema
for the String type is ever requested by this code. -/
inductive JsonSchema where
  | strSchema
  | otherSchema (id : Nat)
deriving DecidableEq

/-- Model of `aide::generate::GenContext` restricted to what the shims use:
`ctx.schema.subschema_for::<String>()`, the schema-context operation named
by the documentation-generation interface. -/
structure GenContext where
  seed : Nat := 0
deriving DecidableEq

/-- Model of `ctx.schema.subschema_for::<String>()`. -/
def GenContext.subschemaForString (_ : GenContext) : JsonSchema :=
  JsonSchema.strSchema

/-- Model of `aide::openapi::SchemaObject` as constructed here: the JSON
schema plus the defaulted example and external-docs fields. -/
structure SchemaObject where
  json_schema : JsonSchema
  exampleValue : Option String := none
  external_docs : Option String := none
deriving DecidableEq

/-- Model of `aide::openapi::MediaType`: the optional schema (all other
fields are defaulted by the code). -/
structure MediaType where
  schema : Option SchemaObject := none
deriving DecidableEq

/-- Model of `aide::openapi::Response`: the description and the content map
as an ordered association list from content-type to media type. -/
structure OpenApiResponse where
  description : String := ""
  content : List (String × MediaType) := []
deriving DecidableEq

/-- Model of an axum `Response` as its observable (status, headers, body)
triple. -/
structure AxumResponse where
  status : Nat := 200
  headers : List (String × String) := []
  body : String := ""
deriving DecidableEq

/-- Embedding of `NoContent` (src/aide-axum-utils/src/lib.rs:60): a marker
type with no fields. -/
inductive NoContent where
  | mk
deriving DecidableEq

/-- Embedding of `IntoResponse for NoContent` (lines 62-66):
`(StatusCode::NO_CONTENT, ()).into_response()`, which axum renders as
status 204 with an empty body. -/
def NoContent.into_response (_ : NoContent) : AxumResponse :=
  { status := 204, headers := [], body := "" }

/-- Model of aide's `OperationOutput` impl for the unit type (an external
collaborator): its operation response is the empty-body response
description. -/
def unitOperationResponse : OpenApiResponse :=
  { description := "no content", content := [] }

/-- Model of `<() as OperationOutput>::operation_response`. -/
def unitOperationOutputResponse (_ctx : GenContext) (_operation : Operation) :
    Option OpenApiResponse :=
  some unitOperationResponse

/-- Embedding of `OperationOutput for NoContent` (lines 68-80): one entry,
status `StatusCode::NO_CONTENT.as_u16()` (204), with the unit type's
operation response; the `unwrap` branch where that response is absent is
unreachable and modelled as the empty list. -/
def NoContent.inferred_responses (ctx : GenContext) (operation : Operation) :
    List (Option Nat × OpenApiResponse) :=
  match unitOperationOutputResponse ctx operation with
  | some r => [(some 204, r)]
  | none => []

/-- Embedding of `IntoResponse for TextPlain` (lines 187-191): the inner
value's response passes through unchanged. The inner type is any type with
a response conversion, modelled by that conversion function. -/
def TextPlain.into_response {α : Type} (innerIntoResponse : α → AxumResponse)
    (inner : α) : AxumResponse :=
  innerIntoResponse inner

/-- Embedding of `TextPlain::operation_response` (lines 196-216): a
response described "plain text" whose content map holds exactly the key
"text/plain" with the context's String subschema. -/
def TextPlain.operation_response (ctx : GenContext) (_operation : Operation) :
    Option OpenApiResponse :=
  some { description := "plain text",
         content := [("text/plain",
           { schema := some { json_schema := ctx.subschemaForString } })] }

/-- Embedding of `TextPlain::inferred_responses` (lines 218-223): one
entry, status 200, with `operation_response`'s value; the inner type's own
inference is passed in to record that it is never consulted, and the
`unwrap` branch where `operation_response` is absent is unreachable and
modelled as the empty list. -/
def TextPlain.inferred_responses
    (_innerInferred : GenContext → Operation → List (Option Nat × OpenApiResponse))
    (ctx : GenContext) (operation : Operation) :
    List (Option Nat × OpenApiResponse) :=
  match TextPlain.operation_response ctx operation with
  | some r => [(some 200, r)]
  | none => []

/-- Claim C8: for every inner type, `TextPlain`'s documentation inference
returns exactly one entry with status 200 whose content map has exactly the
key "text/plain" with a plain-string schema, regardless of the inner
type's own inference, while the runtime conversion passes the inner value's
response through unchanged. -/
theorem c8_text_plain_spec :
    (∀ innerInferred ctx operation,
      TextPlain.inferred_responses innerInferred ctx operation =
        [(some 200,
          { description := "plain text",
            content := [("text/plain",
              { schema := some { json_schema := JsonSchema.strSchema } })] })]) ∧
    (∀ innerInferred ctx operation,
      (TextPlain.inferred_responses innerInferred ctx operation).map
          (fun e => e.2.content.map Prod.fst) = [["text/plain"]]) ∧
    (∀ (α : Type) (innerIntoResponse : α → AxumResponse) (x : α),
      TextPlain.into_response innerIntoResponse x = innerIntoResponse x) :=
  ⟨fun _ _ _ => rfl, fun _ _ _ => rfl, fun _ _ _ => rfl⟩

/-- Claim C9: every value of the no-content marker converts to a response
with status 204 and an empty body, and its documentation inference always
returns exactly one entry with status some 204 and the empty-body response
description. -/
theorem c9_no_content_spec :
    (∀ x : NoContent, NoContent.into_response x =
      { status := 204, headers := [], body := "" }) ∧
    (∀ ctx operation, NoContent.inferred_responses ctx operation =
      [(some 204, unitOperationResponse)]) :=
  ⟨fun _ => rfl, fun _ _ => rfl⟩

